import Mathlib

/-!
Verification of the ThermostatLocalServer configuration, sync and discovery
logic.  The Python source is embedded shallowly: dictionaries of optional
JSON fields become structures of `Option` values (a `none` field models a
key that is absent or carries JSON `null`, which the source treats
identically via `x.get(k) is not None` / `k in x` guards), temperatures are
rationals, timestamps are naturals, and the network/database environment is
passed in explicitly (success booleans, read-back contents, lookup
functions).  Each stateful routine is embedded as a pure function from its
inputs and environment to its externally visible effects.
-/

/-- Thermostat mode values used by the device API: OFF=0, HEAT=1, COOL=2, AUTO=3. -/
abbrev TMode := Int

/-- A partial `/tstat` JSON object, as built by `DeviceConfigManager`
(`apply_initial_config.py`).  Fields are `none` when the key is absent
(or holds `null`, which every consumer of these dictionaries treats as
absence via `is not None` guards). -/
structure ConfigDict where
  tmode : Option TMode := none
  t_heat : Option ℚ := none
  t_cool : Option ℚ := none
  hold : Option Int := none
  fmode : Option Int := none
  deriving Repr, DecidableEq

/-- Current settings read from a device by `read_thermostat_current_settings`:
the four fields `{tmode, t_heat, t_cool, hold}` extracted with `data.get`. -/
structure TstatSettings where
  tmode : Option TMode := none
  t_heat : Option ℚ := none
  t_cool : Option ℚ := none
  hold : Option Int := none
  deriving Repr, DecidableEq

/-- `_build_safe_thermostat_command` (apply_initial_config.py lines 318-341).
Returns the command dictionary together with whether the invalid-tmode
warning was logged.  The source:
  * includes `tmode` only when present and in `[0, 1]`, otherwise clamps a
    present value to `0` with a warning;
  * includes `t_heat` only when the command's `tmode` is `1` and the config
    supplies a non-null `t_heat`;
  * never includes `t_cool`;
  * copies `hold` and `fmode` through when present. -/
def build_safe_thermostat_command (config : ConfigDict) : ConfigDict × Bool :=
  let (cmdTmode, warned) :=
    match config.tmode with
    | none => (none, false)
    | some v => if v = 0 ∨ v = 1 then (some v, false) else (some 0, true)
  let cmdTheat :=
    if cmdTmode = some 1 then config.t_heat else none
  ({ tmode := cmdTmode, t_heat := cmdTheat, t_cool := none,
     hold := config.hold, fmode := config.fmode }, warned)

/-- Season tag returned by `_determine_seasonal_config`. -/
inductive Season where
  | heating
  | cooling
  deriving Repr, DecidableEq

/-- Result of `_determine_seasonal_config`: the season tag and the config
dictionary to push. -/
structure SeasonalConfig where
  season : Season
  config : ConfigDict
  deriving Repr, DecidableEq

/-- Python `date(y, m₁, d₁) <= date(y, m₂, d₂)` for two dates in the same
year: lexicographic comparison on (month, day). -/
def dateLe (m1 d1 m2 d2 : Nat) : Prop :=
  m1 < m2 ∨ (m1 = m2 ∧ d1 ≤ d2)

instance (m1 d1 m2 d2 : Nat) : Decidable (dateLe m1 d1 m2 d2) := by
  unfold dateLe; infer_instance

/-- `_determine_seasonal_config` (apply_initial_config.py lines 288-316),
as a function of today's month and day.  The source compares `date.today()`
against `date(current_year, 11, 16)` and `date(current_year, 4, 14)`, i.e.
lexicographically on (month, day) within the current year:
heating season when `today >= Nov 16 or today <= Apr 14`, else cooling. -/
def determine_seasonal_config (month day : Nat) : SeasonalConfig :=
  if dateLe 11 16 month day ∨ dateLe month day 4 14 then
    { season := .heating
      config := { tmode := some 1, t_heat := some 50, fmode := some 0 } }
  else
    { season := .cooling
      config := { tmode := some 0, fmode := some 0 } }

/-- The heating-season date range as the spec states it:
Nov 16 through Apr 14 inclusive, wrapping the year boundary. -/
def inHeatingSeason (month day : Nat) : Prop :=
  dateLe 11 16 month day ∨ dateLe month day 4 14

/-- The cooling-season date range as the spec states it:
Apr 15 through Nov 15 inclusive. -/
def inCoolingSeason (month day : Nat) : Prop :=
  dateLe 4 15 month day ∧ dateLe month day 11 15

instance (month day : Nat) : Decidable (inHeatingSeason month day) := by
  unfold inHeatingSeason; infer_instance

instance (month day : Nat) : Decidable (inCoolingSeason month day) := by
  unfold inCoolingSeason; infer_instance

/-- Partial update of the `device_config` row, as passed to
`db.update_device_config`: each field is `none` when the update omits it,
and otherwise carries the value together with its `*_applied_at` timestamp
(`datetime.now(timezone.utc)`, modelled as a natural number). -/
structure ConfigUpdates where
  tmode_set : Option (TMode × Nat) := none
  t_heat_set : Option (ℚ × Nat) := none
  t_cool_set : Option (ℚ × Nat) := none
  hold_set : Option (Int × Nat) := none
  deriving Repr, DecidableEq

/-- Python's `if config_updates:` test: the update dictionary is non-empty. -/
def ConfigUpdates.nonempty (u : ConfigUpdates) : Bool :=
  u.tmode_set.isSome || u.t_heat_set.isSome || u.t_cool_set.isSome || u.hold_set.isSome

/-- The update dictionary built by `_update_db_from_thermostat`
(apply_initial_config.py lines 143-161): each of the four fields of the
probed settings is mirrored into its `*_set` column, with an applied-at
timestamp, exactly when it is not `None`. -/
def mirror_updates (s : TstatSettings) (now : Nat) : ConfigUpdates :=
  { tmode_set := s.tmode.map (fun v => (v, now))
    t_heat_set := s.t_heat.map (fun v => (v, now))
    t_cool_set := s.t_cool.map (fun v => (v, now))
    hold_set := s.hold.map (fun v => (v, now)) }

/-- The update dictionary built by `_save_config_to_database`
(apply_initial_config.py lines 343-371): saves `tmode`, `t_heat` and `hold`
from an applied config (never `t_cool`). -/
def save_config_updates (config : ConfigDict) (now : Nat) : ConfigUpdates :=
  { tmode_set := config.tmode.map (fun v => (v, now))
    t_heat_set := config.t_heat.map (fun v => (v, now))
    hold_set := config.hold.map (fun v => (v, now)) }

/-- An externally visible write performed by the configuration / discovery
pipeline: an HTTP POST of a partial config to a device's `/tstat`, a
time-sync POST, a `device_config` row update, a local `thermostats` table
upsert, or a batch registration call to the public server. -/
inductive Effect where
  | devicePost (ip : String) (cmd : ConfigDict)
  | timeSync (ip : String)
  | dbConfigUpdate (thermostatId : String) (upd : ConfigUpdates)
  | localUpsert (thermostatId : String) (ip : String) (awayTemp : ℚ)
  | publicRegister (thermostatIds : List String)
  deriving Repr, DecidableEq

/-- The command posted by `apply_initial_settings`: always `{fmode: 0}`. -/
def fan_off_baseline : ConfigDict := { fmode := some 0 }

/-- `_update_db_from_thermostat` (apply_initial_config.py lines 136-179):
mirrors the probed settings into the `device_config` row; the database write
happens only when the update dictionary is non-empty. -/
def update_db_from_thermostat (thermostatId : String) (s : TstatSettings)
    (now : Nat) : List Effect :=
  let u := mirror_updates s now
  if u.nonempty then [.dbConfigUpdate thermostatId u] else []

/-- `_apply_seasonal_defaults_with_hold` (apply_initial_config.py lines
100-134): takes the seasonal config, forces `hold = 1`, clamps a `tmode`
outside `[0, 1]` (including an absent one, since `None not in [0, 1]`) to
`0`, builds the safe command and posts it; on HTTP 200 the applied config is
saved to the database.  `seasonalPostOk` is whether the device accepted the
POST. -/
def apply_seasonal_defaults_with_hold (ip thermostatId : String)
    (month day : Nat) (seasonalPostOk : Bool) (now : Nat) : List Effect :=
  let config0 := (determine_seasonal_config month day).config
  let config1 := { config0 with hold := some 1 }
  let config :=
    if config1.tmode = some 0 ∨ config1.tmode = some 1 then config1
    else { config1 with tmode := some 0 }
  let command := (build_safe_thermostat_command config).1
  .devicePost ip command ::
    (if seasonalPostOk then [.dbConfigUpdate thermostatId (save_config_updates config now)]
     else [])

/-- `_apply_seasonal_safety_config` (apply_initial_config.py lines 260-286),
the fallback when the thermostat cannot be read: posts the seasonal config
with `hold = 1`; on HTTP 200 saves it to the database; always syncs the
device time afterwards. -/
def apply_seasonal_safety_config (ip thermostatId : String)
    (month day : Nat) (seasonalPostOk : Bool) (now : Nat) : List Effect :=
  let config0 := (determine_seasonal_config month day).config
  let config := { config0 with hold := some 1 }
  let command := (build_safe_thermostat_command config).1
  (.devicePost ip command ::
    (if seasonalPostOk then [.dbConfigUpdate thermostatId (save_config_updates config now)]
     else [])) ++ [.timeSync ip]

/-- `apply_intelligent_config` (apply_initial_config.py lines 64-98), as the
list of externally visible writes it performs.
`provided` is the `current_settings` argument; `readResult` is what
`read_thermostat_current_settings` would return if invoked (step 2 reads the
device only when `provided` is `None`); `seasonalPostOk` is the device's
response to the seasonal-config POST when one is issued.  The unconditional
fan-off baseline (`apply_initial_settings`) always comes first; then:
no readable settings → seasonal safety fallback; `hold == 0` → seasonal
defaults with hold; otherwise (hold is 1, any other non-zero value, or
absent) → preserve the device settings and mirror them into the database. -/
def apply_intelligent_config (ip thermostatId : String)
    (provided : Option TstatSettings) (readResult : Option TstatSettings)
    (month day : Nat) (seasonalPostOk : Bool) (now : Nat) : List Effect :=
  .devicePost ip fan_off_baseline ::
    (match (match provided with | none => readResult | some s => some s) with
     | none => apply_seasonal_safety_config ip thermostatId month day seasonalPostOk now
     | some s =>
       if s.hold = some 0 then
         apply_seasonal_defaults_with_hold ip thermostatId month day seasonalPostOk now
       else
         update_db_from_thermostat thermostatId s now)

/-- Parameters of a `set_state` command (`command_executor.py`).
`tmode` and `hold` model `params.get(k)` directly (`none` = key absent or
null).  For `t_heat` the source distinguishes key presence
(`"t_heat" in params`) from the fetched value, so it is modelled as
`Option (Option ℚ)`: `none` = key absent, `some none` = key present holding
null, `some (some v)` = key present holding the number `v`. -/
structure SetStateParams where
  tmode : Option Int := none
  hold : Option Int := none
  t_heat : Option (Option ℚ) := none
  deriving Repr, DecidableEq

/-- The JSON payload `do_one` POSTs to the device: `{"tmode": tmode,
"hold": hold}` plus `"t_heat"` exactly when `tmode == 1`. -/
structure SetStatePayload where
  tmode : Int
  hold : Int
  t_heat : Option ℚ := none
  deriving Repr, DecidableEq

/-- A `GET /tstat` read-back as seen by `_verify_set_state`: `none` models
an empty/failed read (`if not current: return False`); otherwise the three
fields it inspects, each `none` when the key is missing. -/
structure Readback where
  tmode : Option Int := none
  hold : Option Int := none
  t_heat : Option ℚ := none
  deriving Repr, DecidableEq

/-- The error strings `_execute_set_state` can produce (stand-ins for the
exact messages in command_executor.py). -/
inductive SetStateError where
  /-- "Invalid or missing tmode (expected 0 or 1)" -/
  | invalidTmode
  /-- "Invalid or missing hold (expected 0 or 1)" -/
  | invalidHold
  /-- "Missing t_heat for HEAT mode" -/
  | missingTheat
  /-- "t_heat must be omitted when tmode == 0" -/
  | tHeatMustBeOmitted
  /-- "IP not found" -/
  | ipNotFound
  /-- "Device HTTP ..." from `_post_tstat` -/
  | deviceHttp
  /-- "Verification failed" -/
  | verificationFailed
  deriving Repr, DecidableEq

/-- Environment of one `set_state` execution: the database IP lookup for the
target thermostat, whether the device accepts the POST, and the subsequent
`GET /tstat` read-back. -/
structure ExecEnv where
  resolvedIp : Option String
  postOk : Bool
  readback : Option Readback
  deriving Repr

/-- Outcome of `_execute_set_state`: the `(all_ok, first_err)` pair it
returns, or `crash` when an uncaught exception escapes (the only such path
is `abs(act_heat - exp_heat)` with a missing `t_heat` in the HEAT-mode
read-back). -/
inductive ExecOutcome where
  | ok (success : Bool) (firstErr : Option SetStateError)
  | crash
  deriving Repr, DecidableEq

/-- `_verify_set_state` (command_executor.py lines 210-226), with Python's
short-circuit evaluation of the HEAT branch made explicit; `none` = the
comparison `abs(None - x)` would raise. -/
def verify_set_state (expected : SetStatePayload) (rb : Option Readback) :
    Option Bool :=
  match rb with
  | none => some false
  | some current =>
    if expected.tmode = 0 then
      some (decide (current.tmode = some 0) && decide (current.hold = some expected.hold))
    else
      if current.tmode ≠ some 1 then some false
      else if current.hold ≠ some expected.hold then some false
      else
        match current.t_heat, expected.t_heat with
        | some actHeat, some expHeat => some (decide (|actHeat - expHeat| < 1/10))
        | _, _ => none

/-- Result of `_execute_set_state` on its single target thermostat: the
outcome, the list of payloads actually POSTed to the device, and whether the
defensive-strip warning ("contained t_heat with tmode=0 - removing t_heat
for safety") was logged. -/
structure SetStateResult where
  outcome : ExecOutcome
  posted : List SetStatePayload
  stripWarning : Bool
  deriving Repr, DecidableEq

/-- `_execute_set_state` (command_executor.py lines 59-140) for the single
target thermostat.  Validation order follows the source: tmode in (0,1);
hold in (0,1); defensive strip of `t_heat` when `tmode == 0` and the key is
present (with a warning, never a rejection); "Missing t_heat for HEAT mode"
when `tmode == 1` without a value; "t_heat must be omitted when tmode == 0"
when the key survives with `tmode == 0`.  Then `do_one`: resolve the IP,
POST `{tmode, hold[, t_heat]}`, verify by read-back; the trailing
`device_config` bookkeeping update is wrapped in try/except and never
affects the outcome. -/
def execute_set_state (params : SetStateParams) (env : ExecEnv) :
    SetStateResult :=
  let tmode := params.tmode
  let hold := params.hold
  let tHeatVal : Option ℚ := params.t_heat.bind id
  if ¬(tmode = some 0 ∨ tmode = some 1) then
    ⟨.ok false (some .invalidTmode), [], false⟩
  else if ¬(hold = some 0 ∨ hold = some 1) then
    ⟨.ok false (some .invalidHold), [], false⟩
  else
    -- defensive filtering: remove t_heat if tmode=0 (instead of rejecting)
    let strip := tmode = some 0 ∧ params.t_heat ≠ none
    let params1 := if strip then { params with t_heat := none } else params
    let tHeatVal := if strip then none else tHeatVal
    if tmode = some 1 ∧ tHeatVal = none then
      ⟨.ok false (some .missingTheat), [], decide strip⟩
    else if tmode = some 0 ∧ params1.t_heat ≠ none then
      ⟨.ok false (some .tHeatMustBeOmitted), [], decide strip⟩
    else
      match env.resolvedIp with
      | none => ⟨.ok false (some .ipNotFound), [], decide strip⟩
      | some _ =>
        let payload : SetStatePayload :=
          { tmode := (tmode.getD 0), hold := (hold.getD 0),
            t_heat := if tmode = some 1 then tHeatVal else none }
        if ¬env.postOk then
          ⟨.ok false (some .deviceHttp), [payload], decide strip⟩
        else
          match verify_set_state payload env.readback with
          | none => ⟨.crash, [payload], decide strip⟩
          | some false =>
            ⟨.ok false (some .verificationFailed), [payload], decide strip⟩
          | some true => ⟨.ok true none, [payload], decide strip⟩

/-- A row of the `minute_readings` table as selected by
`get_minute_readings_since` (database/manager.py lines 483-505).
Timestamps are naturals; only the fields the upload logic inspects are
carried (the remaining columns are opaque payload for the claims below). -/
structure MinuteReading where
  thermostat_id : String
  minute_ts : Nat
  temp_avg : ℚ := 0
  poll_count : Nat := 0
  deriving Repr, DecidableEq

/-- `get_minute_readings_since`: `SELECT ... WHERE minute_ts > $1` — rows
strictly newer than the cursor.  The `ORDER BY thermostat_id, minute_ts`
clause only permutes the result; row order is irrelevant to every property
proved below (the maximum over `minute_ts` and the all-batches-succeed
test are permutation invariant), so the embedding keeps table order. -/
def get_minute_readings_since (table : List MinuteReading) (since : Nat) :
    List MinuteReading :=
  table.filter (fun r => since < r.minute_ts)

/-- `max(record.minute_ts for record in minute_data)` over a non-empty list
(folded with 0 as the base, which a non-empty list's entries dominate as
needed below). -/
def latest_minute_ts (rows : List MinuteReading) : Nat :=
  rows.foldl (fun acc r => Nat.max acc r.minute_ts) 0

/-- The batch loop `for i in range(0, len(upload_records), max_batch)`:
consecutive chunks of `maxBatch` records.  Requires `0 < maxBatch`
(a zero step makes Python's `range` raise, handled separately). -/
def chunk_batches (maxBatch : Nat) (rows : List MinuteReading) :
    List (List MinuteReading) :=
  if _h : rows = [] ∨ maxBatch = 0 then []
  else
    rows.take maxBatch :: chunk_batches maxBatch (rows.drop maxBatch)
termination_by rows.length
decreasing_by
  push_neg at _h
  obtain ⟨h1, h2⟩ := _h
  have : 0 < rows.length := List.length_pos.mpr h1
  simp only [List.length_drop]
  omega

/-- The upload loop body: POST each batch in order via `_post_with_retry`
(`batchOk i` = whether the POST of the i-th batch eventually succeeded);
stop at the first failure.  Returns whether every batch was accepted. -/
def upload_batches (batches : List (List MinuteReading))
    (batchOk : Nat → Bool) (i : Nat) : Bool :=
  match batches with
  | [] => true
  | _ :: rest => if batchOk i then upload_batches rest batchOk (i + 1) else false

/-- `_upload_minute_data` (upload_services.py lines 245-334), returning the
`minute_upload` checkpoint value stored after the run.  `cp` is the stored
checkpoint before the run (`none` = no row, in which case the query cursor
falls back to one hour before `now` without writing it back); `table` is the
`minute_readings` table; `batchOk` is the remote server's responses;
`maxBatch` is `public_server.max_batch_size` (a zero value makes the Python
`range` raise, the top-level `except` swallows it and the checkpoint is
untouched).  The checkpoint is rewritten — to the maximum `minute_ts` of the
selected rows — only when there was data and every batch POST succeeded. -/
def upload_minute_data (cp : Option Nat) (now : Nat)
    (table : List MinuteReading) (batchOk : Nat → Bool) (maxBatch : Nat) :
    Option Nat :=
  let cursor := cp.getD (now - 3600)
  let minuteData := get_minute_readings_since table cursor
  if minuteData = [] then cp
  else if maxBatch = 0 then cp
  else if upload_batches (chunk_batches maxBatch minuteData) batchOk 0 then
    some (latest_minute_ts minuteData)
  else cp

/-- A polled status reading as compared by `_detect_state_change`
(the fields of `StatusRecord` it inspects; database/models.py lines 33-45). -/
structure StatusReading where
  temp : ℚ
  t_heat : ℚ
  tmode : Int
  tstate : Int
  hold : Int
  override : Int
  deriving Repr, DecidableEq

/-- The change classification returned by `_detect_state_change` /
`_classify_change_type` (thermostat_server.py lines 602-684). -/
inductive ChangeType where
  | first_reading
  | no_change
  | manual_adjustment
  | hvac_state_change
  | temperature_change
  | override_change
  | other_change
  deriving Repr, DecidableEq

/-- The `changed_fields` dictionary: for each monitored field, `none` when
the field did not change, otherwise the `{from, to}` pair. -/
structure ChangedFields where
  temp : Option (ℚ × ℚ) := none
  t_heat : Option (ℚ × ℚ) := none
  tmode : Option (Int × Int) := none
  tstate : Option (Int × Int) := none
  hold : Option (Int × Int) := none
  override : Option (Int × Int) := none
  deriving Repr, DecidableEq

/-- `_detect_state_change` (thermostat_server.py lines 602-671).
`previous` is the cached last reading for the device (`none` on the very
first reading).  Temperature uses the jitter threshold
`abs(current - previous) >= 0.5`; the other five fields compare exactly. -/
def detect_state_change (previous : Option StatusReading)
    (current : StatusReading) : Bool × ChangeType × Option ChangedFields :=
  match previous with
  | none => (false, .first_reading, none)
  | some prev =>
    let cf : ChangedFields :=
      { temp := if |current.temp - prev.temp| ≥ 1/2
                then some (prev.temp, current.temp) else none
        t_heat := if current.t_heat ≠ prev.t_heat
                then some (prev.t_heat, current.t_heat) else none
        tmode := if current.tmode ≠ prev.tmode
                then some (prev.tmode, current.tmode) else none
        tstate := if current.tstate ≠ prev.tstate
                then some (prev.tstate, current.tstate) else none
        hold := if current.hold ≠ prev.hold
                then some (prev.hold, current.hold) else none
        override := if current.override ≠ prev.override
                then some (prev.override, current.override) else none }
    let significant := cf.temp.isSome || cf.t_heat.isSome || cf.tmode.isSome ||
      cf.tstate.isSome || cf.hold.isSome || cf.override.isSome
    if ¬significant then (false, .no_change, none)
    else (true, classify_change_type cf, some cf)
where
  /-- `_classify_change_type` (thermostat_server.py lines 673-684). -/
  classify_change_type (cf : ChangedFields) : ChangeType :=
    if cf.tmode.isSome || cf.t_heat.isSome || cf.hold.isSome then .manual_adjustment
    else if cf.tstate.isSome then .hvac_state_change
    else if cf.temp.isSome then .temperature_change
    else if cf.override.isSome then .override_change
    else .other_change

/-- A device descriptor as produced by `_get_device_details`; for the scan
accounting only its identity matters, so devices are indexed by their uuid
string here. -/
structure ScanDevice where
  uuid : String
  deriving Repr, DecidableEq

/-- One invocation of the progress callback of `discover_tcp_progressive`:
`callback(devices_since_checkpoint.copy(), ips_scanned, ips_total)`. -/
structure ProgressInvocation where
  devices : List ScanDevice
  ipsScanned : Nat
  ipsTotal : Nat
  deriving Repr, DecidableEq

/-- The scan loop of `discover_tcp_progressive` (discovery/manager.py lines
175-201).  `probe ip` is the result of `_get_device_details(ip, "tcp_scan")`
(`none` = no device at that address).  Although the loop body sits under
`async with semaphore`, the body is awaited inline, so the addresses are
scanned strictly in order; the callback fires after an address whenever the
cumulative scanned count hits a multiple of 10 or the final address, and the
since-checkpoint accumulator is reset after each checkpoint. -/
def scan_loop (probe : String → Option ScanDevice) :
    List String → Nat → Nat → List ScanDevice → List ProgressInvocation
  | [], _, _, _ => []
  | ip :: rest, scanned, total, sinceCheckpoint =>
    let since2 := sinceCheckpoint ++ (probe ip).toList
    let s2 := scanned + 1
    if s2 % 10 = 0 ∨ s2 = total then
      ⟨since2, s2, total⟩ :: scan_loop probe rest s2 total []
    else
      scan_loop probe rest s2 total since2

/-- `discover_tcp_progressive` (discovery/manager.py lines 148-214),
restricted to the sequence of progress-callback invocations it performs on
the candidate address list. -/
def discover_tcp_progressive (probe : String → Option ScanDevice)
    (allIps : List String) : List ProgressInvocation :=
  scan_loop probe allIps 0 allIps.length []

/-- A device as handed to the registration paths: identity, address, name
and discovery method (the remaining descriptor fields do not influence the
control flow compared below). -/
structure DiscoveredDevice where
  uuid : String
  ip : String
  name : String
  discovery_method : String
  deriving Repr, DecidableEq

/-- Database lookup `get_thermostat_by_id`: `none` = no such row,
`some a` = an existing row whose `away_temp` column is `a`
(`none` inside = SQL NULL). -/
abbrev DbLookup := String → Option (Option ℚ)

/-- `_register_and_configure_devices` (services/thermostat_server.py lines
182-284): for each discovered device, preserve an existing row's non-null
`away_temp` (default 50.0 otherwise), upsert the local `thermostats` row,
and on successful upsert read the device's current settings and run
`apply_intelligent_config` on them (when the read fails, the call re-reads
inside `apply_intelligent_config` and falls back to the seasonal safety
config).  Finally, the successfully upserted records are registered with
the public server in one batch when public sync is configured and enabled. -/
def register_and_configure_devices (devices : List DiscoveredDevice)
    (getById : DbLookup) (upsertOk : String → Bool)
    (readSettings : String → Option TstatSettings)
    (month day : Nat) (seasonalPostOk : Bool) (now : Nat)
    (publicSyncAvailable publicEnabled : Bool) : List Effect :=
  let perDevice := devices.flatMap (fun d =>
    let awayTemp : ℚ :=
      match getById d.uuid with
      | some (some a) => a
      | _ => 50
    Effect.localUpsert d.uuid d.ip awayTemp ::
      (if upsertOk d.uuid then
        apply_intelligent_config d.ip d.uuid (readSettings d.ip)
          (readSettings d.ip) month day seasonalPostOk now
      else []))
  let registeredIds := (devices.filter (fun d => upsertOk d.uuid)).map (·.uuid)
  perDevice ++
    (if registeredIds ≠ [] ∧ publicSyncAvailable ∧ publicEnabled then
      [.publicRegister registeredIds]
    else [])

/-- The `registration_results` payload appended to the discovery command
result by `_handle_device_registration` (discovery_command_handler.py lines
506-530). -/
structure RegistrationResults where
  local_registration_success : Bool
  public_server_registration_success : Bool
  devices_registered : Nat
  deriving Repr, DecidableEq

/-- `_handle_device_registration` (discovery_command_handler.py lines
471-530): filters the found devices to those with no existing local row,
builds fresh records for them (away_temp 50.0), and — when there are any and
a public-sync client exists — registers that batch with the public server.
Returns the performed effects and the `registration_results` payload
appended to the command result (`none` when the found-device list was empty
and the handler returned early). -/
def handle_device_registration (devicesFound : List DiscoveredDevice)
    (getById : DbLookup) (publicSyncAvailable : Bool)
    (publicRegisterOk : Bool) : List Effect × Option RegistrationResults :=
  if devicesFound = [] then ([], none)
  else
    let newIds := ((devicesFound.filter (fun d => getById d.uuid = none)).map (·.uuid))
    if newIds ≠ [] ∧ publicSyncAvailable then
      ([.publicRegister newIds],
       some { local_registration_success := true
              public_server_registration_success := publicRegisterOk
              devices_registered := newIds.length })
    else
      ([], some { local_registration_success := true
                  public_server_registration_success := false
                  devices_registered := 0 })

/-- A device write that changes the mode or a setpoint: a `/tstat` POST
whose body contains `tmode`, `t_heat` or `t_cool`. -/
def Effect.isModeOrSetpointWrite : Effect → Bool
  | .devicePost _ c => c.tmode.isSome || c.t_heat.isSome || c.t_cool.isSome
  | _ => false

/-- Any HTTP write to the device itself (config POST or time sync). -/
def Effect.isDeviceWrite : Effect → Bool
  | .devicePost _ _ => true
  | .timeSync _ => true
  | _ => false

/-- A local `thermostats` table upsert. -/
def Effect.isLocalUpsert : Effect → Bool
  | .localUpsert _ _ _ => true
  | _ => false

/-- Reference shape of the progressive-scan callback trace, used to relate
`scan_loop` to the per-block closed form: starting at a block boundary
`scanned` with `scanned + addrs.length = total`, emit one invocation per
block of (up to) 10 addresses, the last one carrying `total` as its scanned
count. -/
def scan_blocks (probe : String → Option ScanDevice) (addrs : List String)
    (scanned total : Nat) : List ProgressInvocation :=
  if addrs = [] then []
  else if addrs.length ≤ 10 then [⟨addrs.filterMap probe, total, total⟩]
  else ⟨(addrs.take 10).filterMap probe, scanned + 10, total⟩ ::
    scan_blocks probe (addrs.drop 10) (scanned + 10) total
termination_by addrs.length
decreasing_by
  rename_i h2
  simp only [List.length_drop]
  omega


/-- C1 counterexample: for the config `{tmode: 1}` (HEAT requested, no
`t_heat` supplied) the built command has mode HEAT yet contains no `t_heat`,
so "the command includes a t_heat setpoint if and only if the command's mode
is HEAT" fails in the if direction. -/
theorem claim_C1_counterexample :
    ¬ (((build_safe_thermostat_command { tmode := some 1 }).1.t_heat ≠ none) ↔
      (build_safe_thermostat_command { tmode := some 1 }).1.tmode = some 1) := by
  decide

/-- C1 (amended): for every configuration input, the command built by
`_build_safe_thermostat_command` never contains mode COOL (`tmode = 2`) and
never contains a `t_cool` field; a present `tmode` other than 0 or 1 is
clamped to OFF (`tmode = 0`) with a warning logged; and the command includes
a `t_heat` setpoint if and only if the command's mode is HEAT (`tmode = 1`)
and the config supplies a (non-null) `t_heat` value. -/
theorem claim_C1_safe_command (config : ConfigDict) :
    (build_safe_thermostat_command config).1.tmode ≠ some 2 ∧
    (build_safe_thermostat_command config).1.t_cool = none ∧
    (∀ v : TMode, config.tmode = some v → v ≠ 0 → v ≠ 1 →
      (build_safe_thermostat_command config).1.tmode = some 0 ∧
      (build_safe_thermostat_command config).2 = true) ∧
    ((build_safe_thermostat_command config).1.t_heat ≠ none ↔
      ((build_safe_thermostat_command config).1.tmode = some 1 ∧
        config.t_heat ≠ none)) := by
  unfold build_safe_thermostat_command
  rcases hT : config.tmode with _ | v
  · simp
  · by_cases h01 : v = 0 ∨ v = 1
    · rcases h01 with h0 | h1
      · subst h0
        refine ⟨by simp, by simp, ?_, by simp⟩
        intro w hw hw0 _
        exact absurd (by simpa using hw) (Ne.symm hw0)
      · subst h1
        refine ⟨by simp, by simp, ?_, by simp⟩
        intro w hw _ hw1
        exact absurd (by simpa using hw) (Ne.symm hw1)
    · push_neg at h01
      simp only [if_neg (by tauto : ¬(v = 0 ∨ v = 1))]
      refine ⟨by simp, by simp, fun w _ _ _ => ⟨by simp, by simp⟩, by simp⟩

/-- C1 witness: the clamping clause at the concrete config `{tmode: 3,
t_heat: 60}` — 3 is neither 0 nor 1, so the command is clamped to OFF and
the warning is logged. -/
theorem claim_C1_witness :
    (({ tmode := some 3, t_heat := some 60 } : ConfigDict).tmode = some 3) ∧
    (build_safe_thermostat_command { tmode := some 3, t_heat := some 60 }).1.tmode = some 0 ∧
    (build_safe_thermostat_command { tmode := some 3, t_heat := some 60 }).2 = true :=
  ⟨rfl,
    (claim_C1_safe_command { tmode := some 3, t_heat := some 60 }).2.2.1 3 rfl
      (by decide) (by decide)⟩

/-- C3: `_determine_seasonal_config` is a pure function of the (month, day)
date; every date in Nov 16 – Apr 14 (wrapping the year boundary) yields the
heating config `{tmode: 1, t_heat: 50, fmode: 0}`, every date in
Apr 15 – Nov 15 yields the cooling-season config `{tmode: 0, fmode: 0}`, and
no date produces mode COOL (2). -/
theorem claim_C3_seasonal_config (month day : Nat) :
    (inHeatingSeason month day →
      determine_seasonal_config month day =
        { season := .heating
          config := { tmode := some 1, t_heat := some 50, fmode := some 0 } }) ∧
    (inCoolingSeason month day →
      determine_seasonal_config month day =
        { season := .cooling
          config := { tmode := some 0, fmode := some 0 } }) ∧
    (determine_seasonal_config month day).config.tmode ≠ some 2 := by
  refine ⟨?_, ?_, ?_⟩
  · intro h
    unfold determine_seasonal_config
    exact if_pos h
  · intro h
    unfold determine_seasonal_config
    refine if_neg ?_
    unfold inCoolingSeason dateLe at h
    unfold dateLe
    omega
  · unfold determine_seasonal_config
    split
    · simp
    · simp

/-- C3 witness: Dec 25 is in the heating range and yields the heating
config; Jul 4 is in the cooling range and yields the cooling config. -/
theorem claim_C3_witness :
    inHeatingSeason 12 25 ∧
    determine_seasonal_config 12 25 =
      { season := .heating
        config := { tmode := some 1, t_heat := some 50, fmode := some 0 } } ∧
    inCoolingSeason 7 4 ∧
    determine_seasonal_config 7 4 =
      { season := .cooling
        config := { tmode := some 0, fmode := some 0 } } :=
  ⟨by decide, (claim_C3_seasonal_config 12 25).1 (by decide),
    by decide, (claim_C3_seasonal_config 7 4).2.1 (by decide)⟩

/-- C2: for every device whose probed settings report `hold = 1`,
`apply_intelligent_config` issues no mode- or setpoint-changing write to the
device — its effect trace is exactly the unconditional fan-off baseline POST
followed by the `device_config` mirror update — and that update mirrors the
device's current `tmode`, `t_heat`, `t_cool` and `hold` values into
`tmode_set`/`t_heat_set`/`t_cool_set`/`hold_set` with applied-at
timestamps. -/
theorem claim_C2_hold_preserves_device (ip tid : String) (s : TstatSettings)
    (readResult : Option TstatSettings) (month day : Nat) (seasonalPostOk : Bool)
    (now : Nat) (h : s.hold = some 1) :
    apply_intelligent_config ip tid (some s) readResult month day seasonalPostOk now =
      [.devicePost ip fan_off_baseline,
       .dbConfigUpdate tid (mirror_updates s now)] ∧
    (∀ e ∈ apply_intelligent_config ip tid (some s) readResult month day
        seasonalPostOk now, e.isModeOrSetpointWrite = false) ∧
    (mirror_updates s now).tmode_set = s.tmode.map (fun v => (v, now)) ∧
    (mirror_updates s now).t_heat_set = s.t_heat.map (fun v => (v, now)) ∧
    (mirror_updates s now).t_cool_set = s.t_cool.map (fun v => (v, now)) ∧
    (mirror_updates s now).hold_set = some (1, now) := by
  have hne : ¬(s.hold = some 0) := by rw [h]; simp
  have hnonempty : (mirror_updates s now).nonempty = true := by
    unfold mirror_updates ConfigUpdates.nonempty
    rw [h]
    simp
  have hmain : apply_intelligent_config ip tid (some s) readResult month day
      seasonalPostOk now =
      [.devicePost ip fan_off_baseline,
       .dbConfigUpdate tid (mirror_updates s now)] := by
    unfold apply_intelligent_config update_db_from_thermostat
    dsimp only
    rw [if_neg hne, if_pos hnonempty]
  refine ⟨hmain, ?_, rfl, rfl, rfl, by unfold mirror_updates; rw [h]; rfl⟩
  intro e he
  rw [hmain] at he
  simp only [List.mem_cons, List.mem_singleton, List.not_mem_nil, or_false] at he
  rcases he with rfl | rfl
  · rfl
  · rfl

/-- C2 witness: the spec scenario — a device reporting
`{tmode: 1, t_heat: 68, hold: 1}` is left untouched (fan-off baseline only)
and those exact values are written into the device-config record. -/
theorem claim_C2_witness :
    ({ tmode := some 1, t_heat := some 68, hold := some 1 } : TstatSettings).hold
        = some 1 ∧
    apply_intelligent_config "10.0.60.5" "tstat-1"
        (some { tmode := some 1, t_heat := some 68, hold := some 1 })
        none 7 4 true 100 =
      [.devicePost "10.0.60.5" fan_off_baseline,
       .dbConfigUpdate "tstat-1"
         (mirror_updates { tmode := some 1, t_heat := some 68, hold := some 1 } 100)] :=
  ⟨rfl,
    (claim_C2_hold_preserves_device "10.0.60.5" "tstat-1"
      { tmode := some 1, t_heat := some 68, hold := some 1 }
      none 7 4 true 100 rfl).1⟩

/-- C10: when a successful `/tstat` read carries no `hold` field at all
(`hold` is `None`), `apply_intelligent_config` treats the device exactly as
hold-enabled — it performs only the fan-off baseline write and the
`_update_db_from_thermostat` mirror — and, over all probed settings, a
mode- or setpoint-changing device write can only ever happen when the probed
`hold` is exactly 0. -/
theorem claim_C10_hold_none_preserved (ip tid : String) (s : TstatSettings)
    (readResult : Option TstatSettings) (month day : Nat) (seasonalPostOk : Bool)
    (now : Nat) (h : s.hold = none) :
    apply_intelligent_config ip tid (some s) readResult month day seasonalPostOk now =
      .devicePost ip fan_off_baseline :: update_db_from_thermostat tid s now ∧
    (∀ e ∈ apply_intelligent_config ip tid (some s) readResult month day
        seasonalPostOk now, e.isModeOrSetpointWrite = false) ∧
    (∀ (s2 : TstatSettings) (e : Effect),
      e ∈ apply_intelligent_config ip tid (some s2) readResult month day
        seasonalPostOk now →
      e.isModeOrSetpointWrite = true → s2.hold = some 0) := by
  have hpreserve : ∀ s3 : TstatSettings, ¬(s3.hold = some 0) →
      apply_intelligent_config ip tid (some s3) readResult month day
        seasonalPostOk now =
        .devicePost ip fan_off_baseline :: update_db_from_thermostat tid s3 now := by
    intro s3 hne
    unfold apply_intelligent_config
    dsimp only
    rw [if_neg hne]
  have hupd : ∀ (s3 : TstatSettings) (e : Effect),
      e ∈ update_db_from_thermostat tid s3 now → e.isModeOrSetpointWrite = false := by
    intro s3 e he
    unfold update_db_from_thermostat at he
    dsimp only at he
    split at he
    · simp only [List.mem_singleton] at he
      rw [he]
      rfl
    · cases he
  have hne : ¬(s.hold = some 0) := by rw [h]; simp
  refine ⟨hpreserve s hne, ?_, ?_⟩
  · intro e he
    rw [hpreserve s hne] at he
    rcases (List.mem_cons.mp he) with rfl | he
    · rfl
    · exact hupd s e he
  · intro s2 e he hw
    by_contra hcon
    rw [hpreserve s2 hcon] at he
    rcases (List.mem_cons.mp he) with rfl | he
    · cases hw
    · rw [hupd s2 e he] at hw
      cases hw

/-- C10 witness: a device whose `/tstat` response has no `hold` key but
reports HEAT at 68 is preserved: the only device write is the fan-off
baseline, and its settings are mirrored to the database. -/
theorem claim_C10_witness :
    ({ tmode := some 1, t_heat := some 68 } : TstatSettings).hold = none ∧
    apply_intelligent_config "10.0.60.7" "tstat-7"
        (some { tmode := some 1, t_heat := some 68 }) none 12 25 true 200 =
      .devicePost "10.0.60.7" fan_off_baseline ::
        update_db_from_thermostat "tstat-7" { tmode := some 1, t_heat := some 68 } 200 :=
  ⟨rfl,
    (claim_C10_hold_none_preserved "10.0.60.7" "tstat-7"
      { tmode := some 1, t_heat := some 68 } none 12 25 true 200 rfl).1⟩

/-- C5: for every `set_state` command with `tmode = 0`, a valid hold in
`{0, 1}` and a supplied `t_heat`, the executor strips `t_heat` (logging a
warning) instead of rejecting, POSTs exactly the payload
`{tmode: 0, hold: <given>}`, and returns success if and only if the POST is
accepted and the `/tstat` read-back confirms `tmode = 0` and the requested
hold. -/
theorem claim_C5_set_state_off_strips (params : SetStateParams) (env : ExecEnv)
    (hv : Int) (ip : String)
    (h0 : params.tmode = some 0) (hh : params.hold = some hv)
    (hv01 : hv = 0 ∨ hv = 1) (ht : params.t_heat ≠ none)
    (hip : env.resolvedIp = some ip) :
    (execute_set_state params env).posted = [{ tmode := 0, hold := hv }] ∧
    (execute_set_state params env).stripWarning = true ∧
    ((execute_set_state params env).outcome = .ok true none ↔
      (env.postOk = true ∧ ∃ rb, env.readback = some rb ∧
        rb.tmode = some 0 ∧ rb.hold = some hv)) := by
  obtain ⟨ptmode, phold, ptheat⟩ := params
  obtain ⟨rip, rpost, rrb⟩ := env
  dsimp only at h0 hh ht hip ⊢
  subst h0
  subst hh
  subst hip
  cases ptheat with
  | none => exact absurd rfl ht
  | some w =>
    rcases hv01 with rfl | rfl <;>
      cases rpost <;> rcases rrb with _ | rb <;>
        first
        | (simp [execute_set_state, verify_set_state]; done)
        | (by_cases h1 : rb.tmode = some 0 <;> by_cases h2 : rb.hold = some 0 <;>
            simp [execute_set_state, verify_set_state, h1, h2] <;> done)
        | (by_cases h1 : rb.tmode = some 0 <;> by_cases h2 : rb.hold = some 1 <;>
            simp [execute_set_state, verify_set_state, h1, h2] <;> done)

/-- C5 witness: the spec scenario `{tmode: 0, t_heat: 70, hold: 1}` against
a device that accepts the POST and reads back `{tmode: 0, hold: 1}` — the
stripped payload is sent, the warning is logged, and the command succeeds. -/
theorem claim_C5_witness :
    (execute_set_state
        { tmode := some 0, hold := some 1, t_heat := some (some 70) }
        { resolvedIp := some "10.0.60.5", postOk := true,
          readback := some { tmode := some 0, hold := some 1 } }).posted =
      [{ tmode := 0, hold := 1 }] ∧
    (execute_set_state
        { tmode := some 0, hold := some 1, t_heat := some (some 70) }
        { resolvedIp := some "10.0.60.5", postOk := true,
          readback := some { tmode := some 0, hold := some 1 } }).stripWarning
      = true ∧
    (execute_set_state
        { tmode := some 0, hold := some 1, t_heat := some (some 70) }
        { resolvedIp := some "10.0.60.5", postOk := true,
          readback := some { tmode := some 0, hold := some 1 } }).outcome =
      .ok true none := by
  have h := claim_C5_set_state_off_strips
    { tmode := some 0, hold := some 1, t_heat := some (some 70) }
    { resolvedIp := some "10.0.60.5", postOk := true,
      readback := some { tmode := some 0, hold := some 1 } }
    1 "10.0.60.5" rfl rfl (Or.inr rfl) (by decide) rfl
  exact ⟨h.1, h.2.1,
    h.2.2.mpr ⟨rfl, { tmode := some 0, hold := some 1 }, rfl, rfl, rfl⟩⟩

/-- C9: the rejection branch "t_heat must be omitted when tmode == 0" in
`_execute_set_state` is unreachable: for every command input and
environment, the executor never returns that error, because the earlier
defensive-strip step has already removed `t_heat` from the params whenever
`tmode = 0`. -/
theorem claim_C9_omitted_rejection_unreachable (params : SetStateParams)
    (env : ExecEnv) (b : Bool) :
    (execute_set_state params env).outcome ≠ .ok b (some .tHeatMustBeOmitted) := by
  unfold execute_set_state
  dsimp only
  split_ifs <;> (repeat' split) <;> simp_all

/-- Helper: a left fold of `Nat.max` over row timestamps dominates its
initial accumulator. -/
theorem le_foldl_max_ts (rows : List MinuteReading) (acc : Nat) :
    acc ≤ rows.foldl (fun a r => Nat.max a r.minute_ts) acc := by
  induction rows generalizing acc with
  | nil => exact le_refl acc
  | cons r rest ih => exact le_trans (Nat.le_max_left acc r.minute_ts) (ih _)

/-- Helper: every member's timestamp is bounded by the `Nat.max` fold. -/
theorem mem_le_foldl_max_ts (rows : List MinuteReading) :
    ∀ (acc : Nat) (r : MinuteReading), r ∈ rows →
      r.minute_ts ≤ rows.foldl (fun a x => Nat.max a x.minute_ts) acc := by
  induction rows with
  | nil => intro acc r hr; cases hr
  | cons x rest ih =>
    intro acc r hr
    rcases List.mem_cons.mp hr with rfl | hr2
    · exact le_trans (Nat.le_max_right acc r.minute_ts) (le_foldl_max_ts rest _)
    · exact ih _ r hr2

/-- C6: in every run of `_upload_minute_data` the stored `minute_upload`
checkpoint never decreases; it moves — to the maximum `minute_ts` among the
uploaded rows — only when there was data to upload and every batch POST in
the run succeeded; with no data, or with any failed batch, it is left
unchanged. -/
theorem claim_C6_minute_checkpoint (cp : Option Nat) (now : Nat)
    (table : List MinuteReading) (batchOk : Nat → Bool) (maxBatch : Nat) :
    (∀ t, cp = some t →
      ∃ u, upload_minute_data cp now table batchOk maxBatch = some u ∧ t ≤ u) ∧
    (upload_minute_data cp now table batchOk maxBatch ≠ cp →
      get_minute_readings_since table (cp.getD (now - 3600)) ≠ [] ∧
      upload_batches (chunk_batches maxBatch
        (get_minute_readings_since table (cp.getD (now - 3600)))) batchOk 0 = true ∧
      upload_minute_data cp now table batchOk maxBatch =
        some (latest_minute_ts
          (get_minute_readings_since table (cp.getD (now - 3600))))) ∧
    ((get_minute_readings_since table (cp.getD (now - 3600)) = [] ∨
      upload_batches (chunk_batches maxBatch
        (get_minute_readings_since table (cp.getD (now - 3600)))) batchOk 0 = false) →
      upload_minute_data cp now table batchOk maxBatch = cp) := by
  have hres : upload_minute_data cp now table batchOk maxBatch =
      (if get_minute_readings_since table (cp.getD (now - 3600)) = [] then cp
       else if maxBatch = 0 then cp
       else if upload_batches (chunk_batches maxBatch
           (get_minute_readings_since table (cp.getD (now - 3600)))) batchOk 0 then
         some (latest_minute_ts (get_minute_readings_since table (cp.getD (now - 3600))))
       else cp) := rfl
  by_cases hd : get_minute_readings_since table (cp.getD (now - 3600)) = []
  · rw [hres, if_pos hd]
    exact ⟨fun t ht => ⟨t, ht, le_refl t⟩, fun hne => absurd rfl hne,
      fun _ => rfl⟩
  · by_cases hm : maxBatch = 0
    · rw [hres, if_neg hd, if_pos hm]
      exact ⟨fun t ht => ⟨t, ht, le_refl t⟩, fun hne => absurd rfl hne, fun _ => rfl⟩
    · by_cases hb : upload_batches (chunk_batches maxBatch
          (get_minute_readings_since table (cp.getD (now - 3600)))) batchOk 0
      · rw [hres, if_neg hd, if_neg hm, if_pos hb]
        refine ⟨?_, fun _ => ⟨hd, hb, rfl⟩, ?_⟩
        · intro t ht
          refine ⟨latest_minute_ts _, rfl, ?_⟩
          obtain ⟨r, hr⟩ := List.exists_mem_of_ne_nil _ hd
          have hlt : (cp.getD (now - 3600)) < r.minute_ts := by
            have := (List.mem_filter.mp hr).2
            simpa using this
          have hle : r.minute_ts ≤ latest_minute_ts
              (get_minute_readings_since table (cp.getD (now - 3600))) :=
            mem_le_foldl_max_ts _ 0 r hr
          have hcp : cp.getD (now - 3600) = t := by rw [ht]; rfl
          rw [hcp] at hlt
          omega
        · intro hpre
          rcases hpre with h1 | h1
          · exact absurd h1 hd
          · rw [hb] at h1
            cases h1
      · rw [hres, if_neg hd, if_neg hm, if_neg hb]
        exact ⟨fun t ht => ⟨t, ht, le_refl t⟩, fun hne => absurd rfl hne, fun _ => rfl⟩

/-- C6 witness: a run over a table holding rows at minutes 60 and 120 with
checkpoint 50 — the claim instance yields a stored checkpoint ≥ 50. -/
theorem claim_C6_witness :
    (some 50 : Option Nat) = some 50 ∧
    ∃ u, upload_minute_data (some 50) 4000
        [{ thermostat_id := "t1", minute_ts := 60 },
         { thermostat_id := "t1", minute_ts := 120 }]
        (fun _ => true) 1 = some u ∧ 50 ≤ u :=
  ⟨rfl,
    (claim_C6_minute_checkpoint (some 50) 4000
      [{ thermostat_id := "t1", minute_ts := 60 },
       { thermostat_id := "t1", minute_ts := 120 }]
      (fun _ => true) 1).1 50 rfl⟩

/-- C7: `_detect_state_change` — the very first reading (no cached previous
reading) is never a change; a consecutive pair with temperature delta
strictly below 0.5 and identical `t_heat`, `tmode`, `tstate`, `hold` and
`override` is no-change; and a pair differing in exactly one monitored field
beyond its threshold (temperature delta ≥ 0.5, or any exact difference in
the other five fields) is a change with that field carried in the
changed-fields diff. -/
theorem claim_C7_detect_state_change (prev cur : StatusReading) :
    detect_state_change none cur = (false, .first_reading, none) ∧
    (|cur.temp - prev.temp| < 1/2 → cur.t_heat = prev.t_heat →
      cur.tmode = prev.tmode → cur.tstate = prev.tstate →
      cur.hold = prev.hold → cur.override = prev.override →
      detect_state_change (some prev) cur = (false, .no_change, none)) ∧
    (1/2 ≤ |cur.temp - prev.temp| → cur.t_heat = prev.t_heat →
      cur.tmode = prev.tmode → cur.tstate = prev.tstate →
      cur.hold = prev.hold → cur.override = prev.override →
      detect_state_change (some prev) cur =
        (true, .temperature_change, some { temp := some (prev.temp, cur.temp) })) ∧
    (|cur.temp - prev.temp| < 1/2 → cur.t_heat ≠ prev.t_heat →
      cur.tmode = prev.tmode → cur.tstate = prev.tstate →
      cur.hold = prev.hold → cur.override = prev.override →
      detect_state_change (some prev) cur =
        (true, .manual_adjustment, some { t_heat := some (prev.t_heat, cur.t_heat) })) ∧
    (|cur.temp - prev.temp| < 1/2 → cur.t_heat = prev.t_heat →
      cur.tmode ≠ prev.tmode → cur.tstate = prev.tstate →
      cur.hold = prev.hold → cur.override = prev.override →
      detect_state_change (some prev) cur =
        (true, .manual_adjustment, some { tmode := some (prev.tmode, cur.tmode) })) ∧
    (|cur.temp - prev.temp| < 1/2 → cur.t_heat = prev.t_heat →
      cur.tmode = prev.tmode → cur.tstate ≠ prev.tstate →
      cur.hold = prev.hold → cur.override = prev.override →
      detect_state_change (some prev) cur =
        (true, .hvac_state_change, some { tstate := some (prev.tstate, cur.tstate) })) ∧
    (|cur.temp - prev.temp| < 1/2 → cur.t_heat = prev.t_heat →
      cur.tmode = prev.tmode → cur.tstate = prev.tstate →
      cur.hold ≠ prev.hold → cur.override = prev.override →
      detect_state_change (some prev) cur =
        (true, .manual_adjustment, some { hold := some (prev.hold, cur.hold) })) ∧
    (|cur.temp - prev.temp| < 1/2 → cur.t_heat = prev.t_heat →
      cur.tmode = prev.tmode → cur.tstate = prev.tstate →
      cur.hold = prev.hold → cur.override ≠ prev.override →
      detect_state_change (some prev) cur =
        (true, .override_change, some { override := some (prev.override, cur.override) })) := by
  refine ⟨rfl, ?_, ?_, ?_, ?_, ?_, ?_, ?_⟩ <;>
    (intro h1 h2 h3 h4 h5 h6
     simp only [one_div] at h1
     first
     | simp [detect_state_change, detect_state_change.classify_change_type,
         h1, not_le.mpr h1, h2, h3, h4, h5, h6]
     | simp [detect_state_change, detect_state_change.classify_change_type,
         h1, not_lt.mpr h1, h2, h3, h4, h5, h6])

/-- C7 witness: concrete readings — 70.0 → 70.4 with all other fields equal
is no-change; 70.0 → 70.5 with all other fields equal is a temperature
change carrying the (from, to) pair. -/
theorem claim_C7_witness :
    (|((704 : ℚ)/10) - 70| < 1/2 ∧
      detect_state_change (some ⟨70, 68, 1, 1, 1, 0⟩) ⟨(704 : ℚ)/10, 68, 1, 1, 1, 0⟩
        = (false, .no_change, none)) ∧
    ((1 : ℚ)/2 ≤ |((705 : ℚ)/10) - 70| ∧
      detect_state_change (some ⟨70, 68, 1, 1, 1, 0⟩) ⟨(705 : ℚ)/10, 68, 1, 1, 1, 0⟩
        = (true, .temperature_change, some { temp := some (70, (705 : ℚ)/10) })) :=
  ⟨⟨by norm_num [abs_lt],
    (claim_C7_detect_state_change ⟨70, 68, 1, 1, 1, 0⟩ ⟨(704 : ℚ)/10, 68, 1, 1, 1, 0⟩).2.1
      (by norm_num [abs_lt]) rfl rfl rfl rfl rfl⟩,
   ⟨by norm_num [le_abs],
    (claim_C7_detect_state_change ⟨70, 68, 1, 1, 1, 0⟩ ⟨(705 : ℚ)/10, 68, 1, 1, 1, 0⟩).2.2.1
      (by norm_num [le_abs]) rfl rfl rfl rfl rfl⟩⟩

/-- Helper: one checkpoint block of the scan loop.  From any position `s`
with addresses remaining, the loop emits exactly one invocation after the
`10 - s % 10` addresses to the next checkpoint (or after all remaining
addresses when they run out first, with the final-address trigger), then
restarts with an empty accumulator. -/
theorem scan_loop_step (probe : String → Option ScanDevice) :
    ∀ (addrs : List String) (s total : Nat) (since : List ScanDevice),
      s + addrs.length = total → addrs ≠ [] →
      scan_loop probe addrs s total since =
        (if addrs.length ≤ 10 - s % 10 then
          [⟨since ++ addrs.filterMap probe, total, total⟩]
        else
          ⟨since ++ (addrs.take (10 - s % 10)).filterMap probe,
            s + (10 - s % 10), total⟩ ::
            scan_loop probe (addrs.drop (10 - s % 10)) (s + (10 - s % 10))
              total []) := by
  intro addrs
  induction addrs with
  | nil => intro s total since h hne; exact absurd rfl hne
  | cons a rest ih =>
    intro s total since h hne
    have hmod : s % 10 ≤ 9 := by omega
    simp only [List.length_cons] at h
    by_cases htrig : (s + 1) % 10 = 0 ∨ s + 1 = total
    · rcases rest with _ | ⟨b, rest2⟩
      · -- single remaining address: total = s + 1, trigger fires
        have htot : total = s + 1 := by simp at h; omega
        subst htot
        rw [scan_loop, if_pos htrig]
        cases hp : probe a <;>
          simp [hp, scan_loop, show (1 : Nat) ≤ 10 - s % 10 from by omega]
      · -- more addresses remain: the trigger is the ten-address boundary
        have h10 : (s + 1) % 10 = 0 := by
          rcases htrig with h1 | h1
          · exact h1
          · exfalso; simp at h; omega
        have hs9 : s % 10 = 9 := by omega
        rw [scan_loop, if_pos htrig]
        have hterm : 10 - s % 10 = 0 + 1 := by omega
        rw [hterm]
        rw [if_neg (by simp)]
        simp only [List.take_succ_cons, List.take_zero, List.drop_succ_cons,
          List.drop_zero, Nat.zero_add]
        cases hp : probe a <;> simp [hp]
    · -- no trigger: keep accumulating into the checkpoint window
      have hne2 : rest ≠ [] := by
        intro he
        rw [he] at h
        push_neg at htrig
        simp at h
        exact htrig.2 h
      push_neg at htrig
      have hs8 : s % 10 ≤ 8 := by omega
      have hsucc : (s + 1) % 10 = s % 10 + 1 := by omega
      have ihh := ih (s + 1) total (since ++ (probe a).toList) (by omega) hne2
      rw [scan_loop,
        if_neg (show ¬((s + 1) % 10 = 0 ∨ s + 1 = total) from by push_neg; exact htrig)]
      rw [ihh, hsucc]
      by_cases hlen : rest.length ≤ 10 - (s % 10 + 1)
      · rw [if_pos hlen, if_pos (by simp; omega)]
        cases hp : probe a <;> simp [hp]
      · rw [if_neg hlen, if_neg (by simp; omega)]
        have harith : 10 - s % 10 = (10 - (s % 10 + 1)) + 1 := by omega
        rw [harith]
        have e2 : s + 1 + (10 - (s % 10 + 1)) = s + ((10 - (s % 10 + 1)) + 1) := by
          omega
        rw [e2]
        simp only [List.take_succ_cons, List.drop_succ_cons]
        cases hp : probe a <;> simp [hp, List.append_assoc]

/-- Helper: started at a block boundary with an empty accumulator, the scan
loop produces exactly the per-block reference trace `scan_blocks`. -/
theorem scan_loop_eq_blocks (probe : String → Option ScanDevice) :
    ∀ (n : Nat) (addrs : List String) (s total : Nat),
      addrs.length = n → s % 10 = 0 → s + addrs.length = total →
      scan_loop probe addrs s total [] = scan_blocks probe addrs s total := by
  intro n
  induction n using Nat.strong_induction_on with
  | _ n ih =>
    intro addrs s total hlen hs h
    by_cases hne : addrs = []
    · subst hne
      rw [scan_blocks]
      simp [scan_loop]
    · rw [scan_loop_step probe addrs s total [] h hne, hs]
      simp only [Nat.sub_zero]
      by_cases hle : addrs.length ≤ 10
      · rw [if_pos hle, scan_blocks, if_neg hne, if_pos hle]
        simp
      · rw [if_neg hle, scan_blocks, if_neg hne, if_neg hle]
        have hdrop : (addrs.drop 10).length = addrs.length - 10 := by
          simp [List.length_drop]
        have ihh := ih (addrs.drop 10).length
          (by rw [hdrop, hlen]; omega)
          (addrs.drop 10) (s + 10) total rfl (by omega)
          (by rw [hdrop]; omega)
        rw [ihh]
        simp

/-- Helper: the per-block trace has `⌈length / 10⌉ = (length + 9) / 10`
invocations. -/
theorem scan_blocks_length (probe : String → Option ScanDevice) :
    ∀ (n : Nat) (addrs : List String) (s total : Nat), addrs.length = n →
      (scan_blocks probe addrs s total).length = (addrs.length + 9) / 10 := by
  intro n
  induction n using Nat.strong_induction_on with
  | _ n ih =>
    intro addrs s total hlen
    by_cases hne : addrs = []
    · subst hne
      rw [scan_blocks]
      simp
    · have hpos : 0 < addrs.length := List.length_pos.mpr hne
      by_cases hle : addrs.length ≤ 10
      · rw [scan_blocks, if_neg hne, if_pos hle]
        simp only [List.length_singleton]
        omega
      · rw [scan_blocks, if_neg hne, if_neg hle]
        have hdrop : (addrs.drop 10).length = addrs.length - 10 := by
          simp [List.length_drop]
        have ihh := ih (addrs.drop 10).length
          (by rw [hdrop, hlen]; omega)
          (addrs.drop 10) (s + 10) total rfl
        simp only [List.length_cons, ihh, hdrop]
        omega

/-- Helper: the k-th invocation of the per-block trace reports the devices
found in the k-th window of 10 addresses, the cumulative scanned count
`min (s + 10 * (k + 1)) total`, and the total. -/
theorem scan_blocks_get (probe : String → Option ScanDevice) :
    ∀ (n : Nat) (addrs : List String) (s total : Nat), addrs.length = n →
      s + addrs.length = total →
      ∀ (k : Nat) (hk : k < (scan_blocks probe addrs s total).length),
        (scan_blocks probe addrs s total).get ⟨k, hk⟩ =
          ⟨((addrs.drop (10 * k)).take 10).filterMap probe,
            min (s + 10 * (k + 1)) total, total⟩ := by
  intro n
  induction n using Nat.strong_induction_on with
  | _ n ih =>
    intro addrs s total hlen h k hk
    by_cases hne : addrs = []
    · exfalso
      rw [scan_blocks] at hk
      simp [hne] at hk
    · have hpos : 0 < addrs.length := List.length_pos.mpr hne
      by_cases hle : addrs.length ≤ 10
      · have hk1 : k < 1 := by
          have := hk
          rw [scan_blocks, if_neg hne, if_pos hle] at this
          simpa using this
        have hk0 : k = 0 := by omega
        subst hk0
        have hget : (scan_blocks probe addrs s total).get ⟨0, hk⟩ =
            ⟨addrs.filterMap probe, total, total⟩ := by
          have heq : scan_blocks probe addrs s total =
              [⟨addrs.filterMap probe, total, total⟩] := by
            rw [scan_blocks, if_neg hne, if_pos hle]
          rw [List.get_of_eq heq]
          rfl
        rw [hget]
        have htake : addrs.take 10 = addrs := List.take_of_length_le hle
        have hmin : min (s + 10 * (0 + 1)) total = total := by omega
        simp [htake, hmin]
      · have heq : scan_blocks probe addrs s total =
            ⟨(addrs.take 10).filterMap probe, s + 10, total⟩ ::
              scan_blocks probe (addrs.drop 10) (s + 10) total := by
          rw [scan_blocks, if_neg hne, if_neg hle]
        have hdrop : (addrs.drop 10).length = addrs.length - 10 := by
          simp [List.length_drop]
        cases k with
        | zero =>
          rw [List.get_of_eq heq]
          have hmin : min (s + 10 * (0 + 1)) total = s + 10 := by omega
          simp [hmin]
        | succ j =>
          have hkj : j < (scan_blocks probe (addrs.drop 10) (s + 10) total).length := by
            have := hk
            rw [heq] at this
            simpa using this
          have hstep : (scan_blocks probe addrs s total).get ⟨j + 1, hk⟩ =
              (scan_blocks probe (addrs.drop 10) (s + 10) total).get ⟨j, hkj⟩ := by
            rw [List.get_of_eq heq]
            rfl
          rw [hstep]
          have ihh := ih (addrs.drop 10).length
            (by rw [hdrop, hlen]; omega)
            (addrs.drop 10) (s + 10) total rfl (by rw [hdrop]; omega) j hkj
          rw [ihh]
          have hdd : (addrs.drop 10).drop (10 * j) = addrs.drop (10 * (j + 1)) := by
            rw [List.drop_drop]
            congr 1
            ring
          have hmin2 : min (s + 10 + 10 * (j + 1)) total =
              min (s + 10 * (j + 1 + 1)) total := by
            congr 1
            ring
          rw [hdd, hmin2]

/-- C8: for every non-empty candidate list of length T scanned by
`discover_tcp_progressive`, the progress callback is invoked exactly
`⌈T / 10⌉` times; the k-th invocation carries the devices found since the
previous checkpoint (the k-th window of 10 addresses), the cumulative
scanned count `min (10 * (k + 1)) T` and the total `T`; and the final
invocation always reports all `T` addresses scanned regardless of remainder
alignment. -/
theorem claim_C8_progress_checkpoints (probe : String → Option ScanDevice)
    (allIps : List String) (hne : allIps ≠ []) :
    (discover_tcp_progressive probe allIps).length = (allIps.length + 9) / 10 ∧
    (∀ (k : Nat) (hk : k < (discover_tcp_progressive probe allIps).length),
      ((discover_tcp_progressive probe allIps).get ⟨k, hk⟩).ipsTotal = allIps.length ∧
      ((discover_tcp_progressive probe allIps).get ⟨k, hk⟩).ipsScanned =
        min (10 * (k + 1)) allIps.length ∧
      ((discover_tcp_progressive probe allIps).get ⟨k, hk⟩).devices =
        ((allIps.drop (10 * k)).take 10).filterMap probe) ∧
    (∀ h2 : discover_tcp_progressive probe allIps ≠ [],
      ((discover_tcp_progressive probe allIps).getLast h2).ipsScanned =
        allIps.length) := by
  have hpos : 0 < allIps.length := List.length_pos.mpr hne
  have hblocks : discover_tcp_progressive probe allIps =
      scan_blocks probe allIps 0 allIps.length :=
    scan_loop_eq_blocks probe allIps.length allIps 0 allIps.length rfl
      (by simp) (by simp)
  have hlen : (discover_tcp_progressive probe allIps).length =
      (allIps.length + 9) / 10 := by
    rw [hblocks]
    exact scan_blocks_length probe allIps.length allIps 0 allIps.length rfl
  have hperk : ∀ (k : Nat) (hk : k < (discover_tcp_progressive probe allIps).length),
      ((discover_tcp_progressive probe allIps).get ⟨k, hk⟩).ipsTotal = allIps.length ∧
      ((discover_tcp_progressive probe allIps).get ⟨k, hk⟩).ipsScanned =
        min (10 * (k + 1)) allIps.length ∧
      ((discover_tcp_progressive probe allIps).get ⟨k, hk⟩).devices =
        ((allIps.drop (10 * k)).take 10).filterMap probe := by
    intro k hk
    have hk2 : k < (scan_blocks probe allIps 0 allIps.length).length := by
      rw [← hblocks]
      exact hk
    have hcast : (discover_tcp_progressive probe allIps).get ⟨k, hk⟩ =
        (scan_blocks probe allIps 0 allIps.length).get ⟨k, hk2⟩ := by
      rw [List.get_of_eq hblocks]
    have hget := scan_blocks_get probe allIps.length allIps 0 allIps.length rfl
      (by simp) k hk2
    rw [hcast, hget]
    exact ⟨rfl, by simp, rfl⟩
  refine ⟨hlen, hperk, ?_⟩
  intro h2
  have hlpos : 0 < (discover_tcp_progressive probe allIps).length :=
    List.length_pos.mpr h2
  have hklt : (discover_tcp_progressive probe allIps).length - 1 <
      (discover_tcp_progressive probe allIps).length := by omega
  have hlast : (discover_tcp_progressive probe allIps).getLast h2 =
      (discover_tcp_progressive probe allIps).get
        ⟨(discover_tcp_progressive probe allIps).length - 1, hklt⟩ := by
    rw [List.getLast_eq_getElem]
    rfl
  rw [hlast]
  obtain ⟨-, hsc, -⟩ := hperk _ hklt
  rw [hsc, hlen]
  omega

/-- C8 witness: scanning 23 candidate addresses produces exactly
`⌈23 / 10⌉ = 3` callback invocations. -/
theorem claim_C8_witness :
    (List.replicate 23 "10.0.60.1" ≠ ([] : List String)) ∧
    (discover_tcp_progressive (fun _ => none)
      (List.replicate 23 "10.0.60.1")).length = 3 := by
  have h := (claim_C8_progress_checkpoints (fun _ => none)
    (List.replicate 23 "10.0.60.1") (by simp)).1
  refine ⟨by simp, ?_⟩
  rw [h]
  simp

/-- C4: evaluation of the discovery-command registration step at a concrete
newly-found device, contrasted with the local registration path.  For a
remote discovery command that requested registration and found the (new)
device `uuid-9`, `_handle_device_registration` emits only a public-server
registration call — no local `thermostats` upsert and no device write — yet
reports `local_registration_success: true` in the payload it appends;
`_register_and_configure_devices`, the path a local discovery uses for the
same device, performs the local upsert and the intelligent-configuration
fan-off baseline write.  The two paths are not the same, contradicting the
spec sentence this claim comes from (and the `apply_initial_config`
parameter name under which remote registration is requested). -/
theorem claim_C4_remote_registration_divergence :
    (handle_device_registration [⟨"uuid-9", "10.0.60.9", "CT50-9", "tcp_scan"⟩]
        (fun _ => none) true true).1 = [.publicRegister ["uuid-9"]] ∧
    (handle_device_registration [⟨"uuid-9", "10.0.60.9", "CT50-9", "tcp_scan"⟩]
        (fun _ => none) true true).2 =
      some { local_registration_success := true
             public_server_registration_success := true
             devices_registered := 1 } ∧
    (∀ e ∈ (handle_device_registration [⟨"uuid-9", "10.0.60.9", "CT50-9", "tcp_scan"⟩]
        (fun _ => none) true true).1,
      e.isLocalUpsert = false ∧ e.isDeviceWrite = false) ∧
    Effect.localUpsert "uuid-9" "10.0.60.9" 50 ∈
      register_and_configure_devices [⟨"uuid-9", "10.0.60.9", "CT50-9", "tcp_scan"⟩]
        (fun _ => none) (fun _ => true)
        (fun _ => some { tmode := some 1, t_heat := some 68, hold := some 1 })
        7 4 true 100 true true ∧
    Effect.devicePost "10.0.60.9" fan_off_baseline ∈
      register_and_configure_devices [⟨"uuid-9", "10.0.60.9", "CT50-9", "tcp_scan"⟩]
        (fun _ => none) (fun _ => true)
        (fun _ => some { tmode := some 1, t_heat := some 68, hold := some 1 })
        7 4 true 100 true true := by
  decide
